import Mathlib

/-!
Shallow embedding of the TMS backend (Express/Prisma controllers) and proofs
about its load lifecycle, settlement/invoice arithmetic, vehicle assignment,
authentication lockout and POD flows.

Each controller handler is modelled as a pure function: the rows the handler
reads are explicit arguments, the rows it writes appear in the result, and
`Except ApiErr` models the early `ApiResponse.error` returns (an `.error`
result means no write was persisted).  JavaScript truthiness on the few
fields where the source relies on it (`||` defaults, `taxRate ? _ : _`)
is modelled explicitly by the `js*` helpers.  Money amounts are `Rat`,
timestamps are `Nat` milliseconds.
-/

namespace TMS

/-- HTTP-level error: status code and message (mirrors `ApiResponse.error`). -/
structure ApiErr where
  status : Nat
  message : String
  deriving DecidableEq, Repr

/-- Load lifecycle states (Prisma `LoadStatus` enum). -/
inductive LoadStatus
  | DRAFT | PENDING_REVIEW | NEGOTIATING | RATE_APPROVED | SCHEDULED | ASSIGNED
  | ACCEPTED | EN_ROUTE_PICKUP | AT_PICKUP | LOADED | EN_ROUTE_DELIVERY
  | AT_DELIVERY | DELIVERED | POD_SUBMITTED | POD_PENDING | COMPLETED | CANCELLED
  deriving DecidableEq, Repr

/-- The string name of a status, as interpolated into error messages. -/
def statusName : LoadStatus → String
  | .DRAFT => "DRAFT"
  | .PENDING_REVIEW => "PENDING_REVIEW"
  | .NEGOTIATING => "NEGOTIATING"
  | .RATE_APPROVED => "RATE_APPROVED"
  | .SCHEDULED => "SCHEDULED"
  | .ASSIGNED => "ASSIGNED"
  | .ACCEPTED => "ACCEPTED"
  | .EN_ROUTE_PICKUP => "EN_ROUTE_PICKUP"
  | .AT_PICKUP => "AT_PICKUP"
  | .LOADED => "LOADED"
  | .EN_ROUTE_DELIVERY => "EN_ROUTE_DELIVERY"
  | .AT_DELIVERY => "AT_DELIVERY"
  | .DELIVERED => "DELIVERED"
  | .POD_SUBMITTED => "POD_SUBMITTED"
  | .POD_PENDING => "POD_PENDING"
  | .COMPLETED => "COMPLETED"
  | .CANCELLED => "CANCELLED"

/-- Principal type carried in the JWT (`req.user.type`). -/
inductive PrincipalType
  | INTERNAL_USER | SHIPPER_USER | DRIVER
  deriving DecidableEq, Repr

/-- The authenticated caller (`req.user`). -/
structure Actor where
  id : Nat
  type : PrincipalType
  deriving DecidableEq, Repr

/-- A `Load` row (fields the modelled handlers read or write). -/
structure Load where
  id : Nat
  loadNumber : String
  shipperClientId : Nat
  status : LoadStatus
  shipperRate : Rat
  driverPay : Option Rat
  pickupDate : Nat
  deliveryDate : Nat
  actualPickupTime : Option Nat
  actualDeliveryTime : Option Nat
  approvedNegotiationId : Option Nat
  deriving DecidableEq, Repr

/-- A `LoadStatusHistory` row as created by the controllers. -/
structure HistoryRow where
  loadId : Nat
  fromStatus : LoadStatus
  toStatus : LoadStatus
  changedById : Nat
  changedByType : PrincipalType
  notes : Option String
  deriving DecidableEq, Repr

/-- A `Driver` row (fields read by load assignment). -/
structure Driver where
  id : Nat
  firstName : String
  lastName : String
  isActive : Bool
  isAvailable : Bool
  deriving DecidableEq, Repr

/-- A `LoadAssignment` row. -/
structure LoadAssignment where
  id : Nat
  loadId : Nat
  driverId : Nat
  assignedById : Nat
  acceptedAt : Option Nat
  rejectedAt : Option Nat
  rejectionReason : Option String
  estimatedPickup : Option Nat
  estimatedDelivery : Option Nat
  notes : Option String
  deriving DecidableEq, Repr

/-- JavaScript `a || b` on an optional number: `null`/`undefined` and `0` are falsy. -/
def jsOrRat (a : Option Rat) (b : Rat) : Rat :=
  match a with
  | some x => if x = 0 then b else x
  | none => b

/-- JavaScript truthiness of an optional number. -/
def jsTruthyRat (a : Option Rat) : Bool :=
  match a with
  | some x => x != 0
  | none => false

/-- JavaScript `a || b` on an optional string with a string default: `""` is falsy. -/
def jsStrOr (a : Option String) (b : String) : String :=
  match a with
  | some s => if s = "" then b else s
  | none => b

/-- JavaScript `a || b` on two optional strings (`notes || record.notes`). -/
def jsOrStrOpt (a b : Option String) : Option String :=
  match a with
  | some s => if s = "" then b else some s
  | none => b

/-- JavaScript `a || b` on an optional timestamp: `null` and `0` are falsy. -/
def jsOrNat (a : Option Nat) (b : Nat) : Nat :=
  match a with
  | some t => if t = 0 then b else t
  | none => b

/-- `isOk` on `Except` results. -/
def resultOk {ε α : Type} : Except ε α → Bool
  | .ok _ => true
  | .error _ => false

/-- The fixed adjacency table of `updateLoadStatus`: JavaScript object lookup
returns `undefined` (here `none`) for statuses that are not keys. -/
def allowedTransitions : LoadStatus → Option (List LoadStatus)
  | .ACCEPTED => some [.EN_ROUTE_PICKUP]
  | .EN_ROUTE_PICKUP => some [.AT_PICKUP]
  | .AT_PICKUP => some [.LOADED]
  | .LOADED => some [.EN_ROUTE_DELIVERY]
  | .EN_ROUTE_DELIVERY => some [.AT_DELIVERY]
  | .AT_DELIVERY => some [.DELIVERED]
  | _ => none

/-- `LoadController.updateLoadStatus`: validates the requested transition
against `allowedTransitions` (only when the current status is a key of the
table, mirroring `allowedTransitions[load.status] && ...`), sets the actual
pickup/delivery timestamps on LOADED/DELIVERED, and appends one history row. -/
def updateLoadStatus (load : Load) (actor : Actor) (target : LoadStatus)
    (notes : Option String) (now : Nat) : Except ApiErr (Load × List HistoryRow) :=
  match allowedTransitions load.status with
  | some nexts =>
    if target ∉ nexts then
      .error ⟨400, "Invalid status transition from " ++ statusName load.status
        ++ " to " ++ statusName target⟩
    else
      .ok ({ load with
              status := target
              actualPickupTime :=
                if target = .LOADED then some now else load.actualPickupTime
              actualDeliveryTime :=
                if target = .DELIVERED then some now else load.actualDeliveryTime },
           [⟨load.id, load.status, target, actor.id, actor.type, notes⟩])
  | none =>
      .ok ({ load with
              status := target
              actualPickupTime :=
                if target = .LOADED then some now else load.actualPickupTime
              actualDeliveryTime :=
                if target = .DELIVERED then some now else load.actualDeliveryTime },
           [⟨load.id, load.status, target, actor.id, actor.type, notes⟩])

/-- `LoadController.submitLoad`: DRAFT → PENDING_REVIEW with one history row. -/
def submitLoad (load : Load) (actor : Actor) :
    Except ApiErr (Load × List HistoryRow) :=
  if load.status ≠ .DRAFT then
    .error ⟨400, "Load can only be submitted from DRAFT status"⟩
  else
    .ok ({ load with status := .PENDING_REVIEW },
         [⟨load.id, .DRAFT, .PENDING_REVIEW, actor.id, actor.type,
           some "Load submitted for review"⟩])

/-- `LoadController.approveLoad`: RATE_APPROVED → SCHEDULED, sets driver pay,
one history row. -/
def approveLoad (load : Load) (driverPay : Option Rat) (notes : Option String)
    (actor : Actor) : Except ApiErr (Load × List HistoryRow) :=
  if load.status ≠ .RATE_APPROVED then
    .error ⟨400, "Load must have approved rate first"⟩
  else
    .ok ({ load with
             status := .SCHEDULED
             driverPay := (match driverPay with
               | some p => some p
               | none => load.driverPay) },
         [⟨load.id, .RATE_APPROVED, .SCHEDULED, actor.id, actor.type,
           some (jsStrOr notes "Load approved and scheduled")⟩])

/-- `LoadController.assignLoad`: SCHEDULED → ASSIGNED, requires an active and
available driver, creates a `LoadAssignment` and one history row. -/
def assignLoad (load : Load) (driver : Driver) (actor : Actor)
    (assignmentId : Nat) (estimatedPickup estimatedDelivery : Option Nat)
    (notes : Option String) :
    Except ApiErr (LoadAssignment × Load × List HistoryRow) :=
  if load.status ≠ .SCHEDULED then
    .error ⟨400, "Load must be scheduled before assignment"⟩
  else if ¬ (driver.isActive ∧ driver.isAvailable) then
    .error ⟨400, "Driver is not available"⟩
  else
    .ok (⟨assignmentId, load.id, driver.id, actor.id, none, none, none,
          estimatedPickup, estimatedDelivery, notes⟩,
         { load with status := .ASSIGNED },
         [⟨load.id, .SCHEDULED, .ASSIGNED, actor.id, actor.type,
           some ("Load assigned to driver " ++ driver.firstName ++ " "
             ++ driver.lastName)⟩])

/-- Negotiation status (Prisma `NegotiationStatus`). -/
inductive NegotiationStatus
  | PENDING | COUNTER_OFFERED | ACCEPTED | REJECTED
  deriving DecidableEq, Repr

/-- A `LoadNegotiation` row. -/
structure Negotiation where
  id : Nat
  loadId : Nat
  proposedRate : Rat
  counterRate : Option Rat
  status : NegotiationStatus
  initiatedBy : String
  handledById : Option Nat
  respondedAt : Option Nat
  notes : Option String
  deriving DecidableEq, Repr

/-- `LoadController.createNegotiation`: creates the negotiation (status
COUNTER_OFFERED when a truthy counter rate is supplied, PENDING otherwise)
and moves a PENDING_REVIEW load to NEGOTIATING.  The source appends no
`LoadStatusHistory` row here, hence the empty list. -/
def createNegotiation (load : Load) (negotiationId : Nat) (proposedRate : Rat)
    (counterRate : Option Rat) (notes : Option String) (actor : Actor) :
    Load × Negotiation × List HistoryRow :=
  let negotiation : Negotiation :=
    ⟨negotiationId, load.id, proposedRate, counterRate,
     if jsTruthyRat counterRate then .COUNTER_OFFERED else .PENDING,
     if actor.type = .INTERNAL_USER then "DISPATCHER" else "SHIPPER",
     if actor.type = .INTERNAL_USER then some actor.id else none,
     none, notes⟩
  (if load.status = .PENDING_REVIEW then { load with status := .NEGOTIATING }
   else load,
   negotiation, [])

/-- `LoadController.acceptNegotiation`: only from PENDING or COUNTER_OFFERED;
sets the load to RATE_APPROVED with rate `counterRate || proposedRate`.  The
source appends no `LoadStatusHistory` row here, hence the empty list. -/
def acceptNegotiation (negotiation : Negotiation) (load : Load) (now : Nat) :
    Except ApiErr (Negotiation × Load × List HistoryRow) :=
  if negotiation.status ≠ .PENDING ∧ negotiation.status ≠ .COUNTER_OFFERED then
    .error ⟨400, "Negotiation already resolved"⟩
  else
    .ok ({ negotiation with status := .ACCEPTED, respondedAt := some now },
         { load with
             status := .RATE_APPROVED
             shipperRate := jsOrRat negotiation.counterRate negotiation.proposedRate
             approvedNegotiationId := some negotiation.id },
         [])

/-- `LoadController.rejectNegotiation`: no status precondition in the source —
any negotiation is marked REJECTED; the load row is never touched. -/
def rejectNegotiation (negotiation : Negotiation) (load : Load)
    (notes : Option String) (now : Nat) : Negotiation × Load :=
  ({ negotiation with
       status := .REJECTED
       respondedAt := some now
       notes := jsOrStrOpt notes negotiation.notes },
   load)

/-- `DriverController.acceptAssignment`: only the assigned driver, only when
`acceptedAt` is not yet set (the source does not look at `rejectedAt`);
the load is set to ACCEPTED and one history row (hard-coded ASSIGNED →
ACCEPTED) is appended. -/
def acceptAssignment (assignment : LoadAssignment) (load : Load)
    (userId now : Nat) : Except ApiErr (LoadAssignment × Load × List HistoryRow) :=
  if assignment.driverId ≠ userId then
    .error ⟨403, "Not your assignment"⟩
  else if assignment.acceptedAt.isSome then
    .error ⟨400, "Assignment already accepted"⟩
  else
    .ok ({ assignment with acceptedAt := some now },
         { load with status := .ACCEPTED },
         [⟨assignment.loadId, .ASSIGNED, .ACCEPTED, userId, .DRIVER,
           some "Driver accepted assignment"⟩])

/-- `DriverController.rejectAssignment`: only the assigned driver, only when
`rejectedAt` is not yet set (the source does not look at `acceptedAt`);
the load goes back to SCHEDULED and one history row is appended. -/
def rejectAssignment (assignment : LoadAssignment) (load : Load)
    (reason : Option String) (userId now : Nat) :
    Except ApiErr (LoadAssignment × Load × List HistoryRow) :=
  if assignment.driverId ≠ userId then
    .error ⟨403, "Not your assignment"⟩
  else if assignment.rejectedAt.isSome then
    .error ⟨400, "Assignment already rejected"⟩
  else
    .ok ({ assignment with rejectedAt := some now, rejectionReason := reason },
         { load with status := .SCHEDULED },
         [⟨assignment.loadId, .ASSIGNED, .SCHEDULED, userId, .DRIVER,
           some ("Driver rejected assignment: "
             ++ (match reason with | some r => r | none => "undefined"))⟩])

/-- A `PodDocument` row (fields the modelled handlers read or write). -/
structure PodDocument where
  id : Nat
  loadId : Nat
  driverId : Nat
  recipientName : Option String
  verifiedAt : Option Nat
  verifiedById : Option Nat
  notes : Option String
  deriving DecidableEq, Repr

/-- `PODController.submitPOD`: the driver must hold an assignment on the load
(the Prisma `include` filters the load's assignments by the caller's driver
id), the load must be DELIVERED or AT_DELIVERY, and a signature image must be
present; on success a POD document is created, the load moves to
POD_SUBMITTED, and one history row is appended. -/
def submitPOD (load : Load) (assignments : List LoadAssignment)
    (driverId podId : Nat) (hasSignature : Bool) (recipientName : Option String)
    (notes : Option String) :
    Except ApiErr (PodDocument × Load × List HistoryRow) :=
  if (assignments.filter (fun a => a.driverId == driverId)).isEmpty then
    .error ⟨403, "You are not assigned to this load"⟩
  else if load.status ≠ .DELIVERED ∧ load.status ≠ .AT_DELIVERY then
    .error ⟨400, "Load must be delivered before submitting POD"⟩
  else if ¬ hasSignature then
    .error ⟨400, "Signature image is required"⟩
  else
    .ok (⟨podId, load.id, driverId, recipientName, none, none, notes⟩,
         { load with status := .POD_SUBMITTED },
         [⟨load.id, load.status, .POD_SUBMITTED, driverId, .DRIVER,
           some "POD submitted by driver"⟩])

/-- `PODController.verifyPOD`: fails once `verifiedAt` is set; otherwise sets
`verifiedAt`/`verifiedById` unconditionally (approve and reject alike) and
moves the load to COMPLETED (approve) or POD_PENDING (reject), appending one
history row either way. -/
def verifyPOD (pod : PodDocument) (load : Load) (approved : Bool)
    (notes : Option String) (userId now : Nat) :
    Except ApiErr (PodDocument × Load × List HistoryRow) :=
  if pod.verifiedAt.isSome then
    .error ⟨400, "POD already verified"⟩
  else
    .ok ({ pod with
             verifiedAt := some now
             verifiedById := some userId
             notes := jsOrStrOpt notes pod.notes },
         { load with status := if approved then .COMPLETED else .POD_PENDING },
         [if approved then
            ⟨pod.loadId, load.status, .COMPLETED, userId, .INTERNAL_USER,
             some "POD verified and approved"⟩
          else
            ⟨pod.loadId, load.status, .POD_PENDING, userId, .INTERNAL_USER,
             some (jsStrOr notes "POD needs correction")⟩])

/-- Settlement lifecycle status (Prisma `SettlementStatus`). -/
inductive SettlementStatus
  | PENDING | APPROVED | PAID | DISPUTED
  deriving DecidableEq, Repr

/-- A raw deduction from the request body: `amount` is `parseFloat`ed, so a
non-numeric value is `none`. -/
structure DeductionInput where
  description : Option String
  amount : Option Rat
  category : Option String
  deriving DecidableEq, Repr

/-- A validated `SettlementDeduction` row. -/
structure Deduction where
  description : Option String
  amount : Rat
  category : String
  deriving DecidableEq, Repr

/-- A `DriverSettlement` row with its deduction rows. -/
structure DriverSettlement where
  driverId : Nat
  loadId : Option Nat
  settlementNumber : String
  periodStart : Nat
  periodEnd : Nat
  grossAmount : Rat
  totalDeductions : Rat
  netAmount : Rat
  status : SettlementStatus
  deductions : List Deduction
  deriving DecidableEq, Repr

/-- The deduction-validation loop shared by both settlement creators: a
missing or negative amount throws (propagated by the controller as a 500),
otherwise the validated rows and the running total are accumulated. -/
def validateDeductions : List DeductionInput → Except ApiErr (List Deduction × Rat)
  | [] => .ok ([], 0)
  | d :: ds =>
    match d.amount with
    | none => .error ⟨500, "Invalid deduction amount"⟩
    | some a =>
      if a < 0 then .error ⟨500, "Invalid deduction amount"⟩
      else
        match validateDeductions ds with
        | .error e => .error e
        | .ok (rest, total) =>
          .ok (⟨d.description, a, jsStrOr d.category "OTHER"⟩ :: rest, a + total)

/-- `SettlementController.createSettlementFromLoad`: load COMPLETED with
truthy driver pay, an accepted non-rejected assignment, no existing
non-disputed settlement; `netAmount = grossAmount - totalDeductions` must not
go negative. -/
def createSettlementFromLoad (load : Load) (assignments : List LoadAssignment)
    (existingNonDisputed : Bool) (deductions : List DeductionInput)
    (settlementNumber : String) : Except ApiErr DriverSettlement :=
  if load.status ≠ .COMPLETED then
    .error ⟨400, "Load must be completed before creating settlement"⟩
  else if ¬ jsTruthyRat load.driverPay then
    .error ⟨400, "Driver pay not set for this load"⟩
  else
    match (assignments.filter
        (fun a => a.acceptedAt.isSome && a.rejectedAt.isNone)).head? with
    | none => .error ⟨404, "No accepted driver assignment found"⟩
    | some assignment =>
      if existingNonDisputed then
        .error ⟨400, "Settlement already exists for this load"⟩
      else
        match validateDeductions deductions with
        | .error e => .error e
        | .ok (validated, totalDeductions) =>
          if (load.driverPay.getD 0 : Rat) - totalDeductions < 0 then
            .error ⟨400, "Deductions exceed gross amount"⟩
          else
            .ok ⟨assignment.driverId, some load.id, settlementNumber,
                 jsOrNat load.actualPickupTime load.pickupDate,
                 jsOrNat load.actualDeliveryTime load.deliveryDate,
                 (load.driverPay.getD 0 : Rat), totalDeductions,
                 (load.driverPay.getD 0 : Rat) - totalDeductions, .PENDING,
                 validated⟩

/-- The Prisma query of `createPeriodSettlement`: COMPLETED loads whose actual
delivery time lies in the closed range and that carry an accepted,
non-rejected assignment for the driver and a non-null driver pay. -/
def periodCandidates (loads : List Load) (assignments : List LoadAssignment)
    (driverId startDate endDate : Nat) : List Load :=
  loads.filter (fun l =>
    l.status == .COMPLETED
    && (match l.actualDeliveryTime with
        | some t => startDate ≤ t && t ≤ endDate
        | none => false)
    && assignments.any (fun a =>
         a.loadId == l.id && a.driverId == driverId
         && a.acceptedAt.isSome && a.rejectedAt.isNone)
    && l.driverPay.isSome)

/-- `SettlementController.createPeriodSettlement`: collects the period's
candidate loads, rejects when none exist or when any already has a
non-disputed settlement, sums the driver pay as the gross amount, and applies
the same deduction validation and non-negative net check. -/
def createPeriodSettlement (loads : List Load) (assignments : List LoadAssignment)
    (existingSettlements : List DriverSettlement) (driverId : Nat)
    (startDate endDate : Nat) (deductions : List DeductionInput)
    (settlementNumber : String) : Except ApiErr DriverSettlement :=
  if startDate ≥ endDate then
    .error ⟨400, "periodStart must be before periodEnd"⟩
  else
    if (periodCandidates loads assignments driverId startDate endDate).isEmpty then
      .error ⟨404, "No completed loads found in period for this driver"⟩
    else if existingSettlements.any (fun s =>
        (match s.loadId with
         | some lid => (periodCandidates loads assignments driverId startDate
             endDate).any (fun l => l.id == lid)
         | none => false)
        && s.status != .DISPUTED) then
      .error ⟨400, "Some loads already have settlements"⟩
    else
      match validateDeductions deductions with
      | .error e => .error e
      | .ok (validated, totalDeductions) =>
        if ((periodCandidates loads assignments driverId startDate endDate).foldl
              (fun acc l => acc + l.driverPay.getD 0) 0) - totalDeductions < 0 then
          .error ⟨400, "Deductions exceed gross amount"⟩
        else
          .ok ⟨driverId, none, settlementNumber, startDate, endDate,
               (periodCandidates loads assignments driverId startDate endDate).foldl
                 (fun acc l => acc + l.driverPay.getD 0) 0, totalDeductions,
               ((periodCandidates loads assignments driverId startDate endDate).foldl
                 (fun acc l => acc + l.driverPay.getD 0) 0) - totalDeductions,
               .PENDING, validated⟩

/-- Invoice lifecycle status (Prisma `InvoiceStatus`). -/
inductive InvoiceStatus
  | DRAFT | SENT | PAID | CANCELLED | OVERDUE
  deriving DecidableEq, Repr

/-- An `InvoiceLineItem` row. -/
structure LineItem where
  description : Option String
  quantity : Rat
  unitPrice : Rat
  amount : Rat
  deriving DecidableEq, Repr

/-- A `ShipperInvoice` row with its line items. -/
structure ShipperInvoice where
  shipperClientId : Nat
  loadId : Nat
  invoiceNumber : String
  subtotal : Rat
  taxAmount : Rat
  total : Rat
  status : InvoiceStatus
  notes : Option String
  lineItems : List LineItem
  deriving DecidableEq, Repr

/-- `InvoiceController.createInvoiceFromLoad`: load must be COMPLETED with no
existing non-cancelled invoice; line items default to one freight item at the
load's shipper rate; `taxAmount = subtotal * (taxRate/100)` and
`total = subtotal + taxAmount`. -/
def createInvoiceFromLoad (load : Load) (existingNonCancelled : Bool)
    (lineItems : Option (List LineItem)) (taxRate : Option Rat)
    (notes : Option String) (invoiceNumber : String) :
    Except ApiErr ShipperInvoice :=
  if load.status ≠ .COMPLETED then
    .error ⟨400, "Load must be completed before invoicing"⟩
  else if existingNonCancelled then
    .error ⟨400, "Invoice already exists for this load"⟩
  else
    let rate := taxRate.getD 0
    let items := match lineItems with
      | some l => l
      | none => [⟨some ("Freight charges - Load " ++ load.loadNumber), 1,
                  load.shipperRate, load.shipperRate⟩]
    let subtotal := (items.map (fun i => i.amount)).sum
    let taxAmount := subtotal * (rate / 100)
    .ok ⟨load.shipperClientId, load.id, invoiceNumber, subtotal, taxAmount,
         subtotal + taxAmount, .DRAFT, notes, items⟩

/-- `InvoiceController.updateInvoice`: only DRAFT invoices; when line items
are supplied the subtotal is recomputed and `taxRate ? subtotal*(taxRate/100)
: invoice.taxAmount` keeps the old tax amount for a missing or zero rate;
without line items only the notes change. -/
def updateInvoice (invoice : ShipperInvoice) (lineItems : Option (List LineItem))
    (taxRate : Option Rat) (notes : Option String) :
    Except ApiErr ShipperInvoice :=
  if invoice.status ≠ .DRAFT then
    .error ⟨400, "Only draft invoices can be updated"⟩
  else
    match lineItems with
    | some items =>
      let subtotal := (items.map (fun i => i.amount)).sum
      let taxAmount :=
        if jsTruthyRat taxRate then subtotal * (taxRate.getD 0 / 100)
        else invoice.taxAmount
      .ok { invoice with
              subtotal := subtotal
              taxAmount := taxAmount
              total := subtotal + taxAmount
              notes := jsOrStrOpt notes invoice.notes
              lineItems := items }
    | none =>
      .ok { invoice with
              notes := match notes with
                | some s => some s
                | none => invoice.notes }

/-- A `VehicleAssignment` row. -/
structure VehicleAssignment where
  vehicleId : Nat
  driverId : Nat
  isCurrentlyAssigned : Bool
  unassignedAt : Option Nat
  notes : Option String
  deriving DecidableEq, Repr

/-- The `updateMany` of assign/unassign: retire a row when it belongs to the
vehicle and is currently assigned, leave it alone otherwise. -/
def retireIfCurrent (vehicleId now : Nat) (a : VehicleAssignment) :
    VehicleAssignment :=
  if a.vehicleId = vehicleId ∧ a.isCurrentlyAssigned then
    { a with isCurrentlyAssigned := false, unassignedAt := some now }
  else a

/-- `assignVehicle`: first retires every currently-assigned row of the
vehicle, then creates the new active assignment. -/
def assignVehicle (tbl : List VehicleAssignment) (vehicleId driverId now : Nat)
    (notes : Option String) : List VehicleAssignment :=
  tbl.map (retireIfCurrent vehicleId now) ++ [⟨vehicleId, driverId, true, none, notes⟩]

/-- `unassignVehicle`: retires every currently-assigned row of the vehicle. -/
def unassignVehicle (tbl : List VehicleAssignment) (vehicleId now : Nat) :
    List VehicleAssignment :=
  tbl.map (retireIfCurrent vehicleId now)

/-- One call to the vehicle-assignment endpoints. -/
inductive VehicleOp
  | assign (vehicleId driverId now : Nat) (notes : Option String)
  | unassign (vehicleId now : Nat)
  deriving DecidableEq, Repr

/-- Apply one endpoint call to the `VehicleAssignment` table. -/
def applyVehicleOp (tbl : List VehicleAssignment) : VehicleOp → List VehicleAssignment
  | .assign vehicleId driverId now notes => assignVehicle tbl vehicleId driverId now notes
  | .unassign vehicleId now => unassignVehicle tbl vehicleId now

/-- Run a sequence of endpoint calls against an initially empty table. -/
def runVehicleOps (ops : List VehicleOp) : List VehicleAssignment :=
  ops.foldl applyVehicleOp []

/-- Number of rows of the table that are currently assigned for a vehicle. -/
def currentCount (tbl : List VehicleAssignment) (vehicleId : Nat) : Nat :=
  tbl.countP (fun a => a.vehicleId == vehicleId && a.isCurrentlyAssigned)

/-- Credential/lockout columns shared by the three principal tables. -/
structure Credential where
  failedLoginAttempts : Nat
  lockedUntil : Option Nat
  isActive : Bool
  deriving DecidableEq, Repr

/-- Outcome of a login attempt, by error branch of the login handlers. -/
inductive LoginOutcome
  | success | invalidCredentials | accountLocked | accountInactive | clientInactive
  deriving DecidableEq, Repr

/-- The lockout window: 15 minutes in milliseconds. -/
def lockWindowMs : Nat := 15 * 60 * 1000

/-- `user.lockedUntil && user.lockedUntil > new Date()`. -/
def lockActive (u : Credential) (now : Nat) : Bool :=
  match u.lockedUntil with
  | some t => now < t
  | none => false

/-- `AuthController.loginInternalUser` (the password check outcome stands in
for `bcrypt.compare`): returns the updated row and the outcome. -/
def loginInternalUser (u : Credential) (passwordOk : Bool) (now : Nat) :
    Credential × LoginOutcome :=
  if lockActive u now then (u, .accountLocked)
  else if ¬ u.isActive then (u, .accountInactive)
  else if ¬ passwordOk then
    let failedAttempts := u.failedLoginAttempts + 1
    ({ u with
         failedLoginAttempts := failedAttempts
         lockedUntil :=
           if 5 ≤ failedAttempts then some (now + lockWindowMs)
           else u.lockedUntil },
     .invalidCredentials)
  else
    ({ u with failedLoginAttempts := 0, lockedUntil := none }, .success)

/-- `AuthController.loginShipperUser`: identical lockout logic, with the
additional ACTIVE check on the owning shipper client. -/
def loginShipperUser (u : Credential) (clientActive : Bool) (passwordOk : Bool)
    (now : Nat) : Credential × LoginOutcome :=
  if lockActive u now then (u, .accountLocked)
  else if ¬ u.isActive then (u, .accountInactive)
  else if ¬ clientActive then (u, .clientInactive)
  else if ¬ passwordOk then
    let failedAttempts := u.failedLoginAttempts + 1
    ({ u with
         failedLoginAttempts := failedAttempts
         lockedUntil :=
           if 5 ≤ failedAttempts then some (now + lockWindowMs)
           else u.lockedUntil },
     .invalidCredentials)
  else
    ({ u with failedLoginAttempts := 0, lockedUntil := none }, .success)

/-- `AuthController.loginDriver`: identical lockout logic on the driver row. -/
def loginDriver (u : Credential) (passwordOk : Bool) (now : Nat) :
    Credential × LoginOutcome :=
  if lockActive u now then (u, .accountLocked)
  else if ¬ u.isActive then (u, .accountInactive)
  else if ¬ passwordOk then
    let failedAttempts := u.failedLoginAttempts + 1
    ({ u with
         failedLoginAttempts := failedAttempts
         lockedUntil :=
           if 5 ≤ failedAttempts then some (now + lockWindowMs)
           else u.lockedUntil },
     .invalidCredentials)
  else
    ({ u with failedLoginAttempts := 0, lockedUntil := none }, .success)

/-- A sample load row used by concrete evaluations. -/
def sampleLoad : Load :=
  ⟨1, "LOAD-2026-0001", 1, .DRAFT, 1000, some 800, 10, 20, none, none, none⟩

/-- A sample negotiation that is already resolved (ACCEPTED). -/
def sampleNegotiationAccepted : Negotiation :=
  ⟨4, 1, 900, none, .ACCEPTED, "SHIPPER", none, some 3, none⟩

/-- A sample assignment that was already rejected by the driver. -/
def sampleRejectedAssignment : LoadAssignment :=
  ⟨2, 1, 9, 3, none, some 5, some "too far", none, none, none⟩

/-- A sample assignment accepted by driver 9 and not rejected. -/
def sampleAcceptedAssignment : LoadAssignment :=
  ⟨2, 1, 9, 3, some 5, none, none, none, none, none⟩

/-- The invoice of the worked example: created from a completed load with one
line item of 100 and a 10 percent tax rate. -/
def exampleInvoiceCreated : Except ApiErr ShipperInvoice :=
  createInvoiceFromLoad { sampleLoad with status := .COMPLETED } false
    (some [⟨none, 1, 100, 100⟩]) (some 10) none "INV-2026-0001"

/-- The worked example continued: a DRAFT update that replaces the line items
(subtotal 200) without supplying a tax rate. -/
def exampleInvoiceUpdated : Except ApiErr ShipperInvoice :=
  match exampleInvoiceCreated with
  | .ok invoice => updateInvoice invoice (some [⟨none, 1, 200, 200⟩]) none none
  | .error e => .error e

end TMS

namespace TMS

/-- C1 counterexample: the guard `allowedTransitions[load.status] && ...` skips
validation whenever the current status is not a key of the table, so a DRAFT
load accepts the target COMPLETED even though COMPLETED is not a permitted
next state for DRAFT — the claim says any such target is rejected. -/
theorem updateLoadStatus_unguarded_cex :
    allowedTransitions ({ sampleLoad with status := .DRAFT } : Load).status = none ∧
    resultOk (updateLoadStatus { sampleLoad with status := .DRAFT }
      ⟨1, .INTERNAL_USER⟩ .COMPLETED none 0) = true := by
  exact ⟨rfl, rfl⟩

/-- C1 (amended): the adjacency table permits exactly one next state per keyed
current state, and for a load whose current status is a key of the table any
other requested target is rejected with an error naming both states; statuses
that are not keys of the table bypass validation entirely. -/
theorem updateLoadStatus_guarded :
    (∀ s nexts, allowedTransitions s = some nexts → nexts.length = 1) ∧
    (∀ (load : Load) (actor : Actor) (target : LoadStatus) (notes : Option String)
       (now : Nat) (nexts : List LoadStatus),
       allowedTransitions load.status = some nexts → target ∉ nexts →
       updateLoadStatus load actor target notes now =
         .error ⟨400, "Invalid status transition from " ++ statusName load.status
           ++ " to " ++ statusName target⟩) := by
  constructor
  · intro s nexts h
    cases s <;> simp_all [allowedTransitions] <;> subst h <;> rfl
  · intro load actor target notes now nexts h hmem
    unfold updateLoadStatus
    rw [h]
    simp [hmem]

/-- C1 witness: an ACCEPTED load requesting DELIVERED is rejected with the
error naming both states. -/
theorem updateLoadStatus_guarded_witness :
    updateLoadStatus { sampleLoad with status := .ACCEPTED } ⟨2, .DRIVER⟩
      .DELIVERED none 5 =
      .error ⟨400, "Invalid status transition from "
        ++ statusName ({ sampleLoad with status := .ACCEPTED } : Load).status
        ++ " to " ++ statusName .DELIVERED⟩ :=
  updateLoadStatus_guarded.2 { sampleLoad with status := .ACCEPTED } ⟨2, .DRIVER⟩
    .DELIVERED none 5 [.EN_ROUTE_PICKUP] rfl (by decide)

/-- C5 counterexample: `rejectNegotiation` never inspects the negotiation
status, so a negotiation already in ACCEPTED is happily re-resolved to
REJECTED — the claim says both resolution operations fail outside
PENDING/COUNTER_OFFERED. -/
theorem rejectNegotiation_no_check_cex :
    sampleNegotiationAccepted.status = .ACCEPTED ∧
    (rejectNegotiation sampleNegotiationAccepted sampleLoad none 7).1.status =
      .REJECTED := by
  exact ⟨rfl, rfl⟩

/-- C5 (amended): acceptance fails unless the negotiation is PENDING or
COUNTER_OFFERED and on success moves the load to RATE_APPROVED with the rate
`counterRate || proposedRate`; rejection performs no status check — it marks
any negotiation REJECTED — and returns the load unchanged. -/
theorem negotiation_resolution :
    (∀ (n : Negotiation) (load : Load) (now : Nat),
       n.status ≠ .PENDING → n.status ≠ .COUNTER_OFFERED →
       acceptNegotiation n load now = .error ⟨400, "Negotiation already resolved"⟩) ∧
    (∀ (n : Negotiation) (load : Load) (now : Nat) n' l' rows,
       acceptNegotiation n load now = .ok (n', l', rows) →
       l'.status = .RATE_APPROVED ∧
       l'.shipperRate = jsOrRat n.counterRate n.proposedRate ∧
       n'.status = .ACCEPTED) ∧
    (∀ (n : Negotiation) (load : Load) (notes : Option String) (now : Nat),
       (rejectNegotiation n load notes now).2 = load ∧
       (rejectNegotiation n load notes now).1.status = .REJECTED) := by
  refine ⟨?_, ?_, ?_⟩
  · intro n load now h1 h2
    simp [acceptNegotiation, h1, h2]
  · intro n load now n' l' rows h
    unfold acceptNegotiation at h
    split at h
    · exact absurd h (by simp)
    · simp only [Except.ok.injEq, Prod.mk.injEq] at h
      obtain ⟨hn, hl, -⟩ := h
      subst hn hl
      exact ⟨rfl, rfl, rfl⟩
  · intro n load notes now
    exact ⟨rfl, rfl⟩

/-- C5 witness: a resolved (ACCEPTED) negotiation cannot be accepted again. -/
theorem negotiation_resolution_witness :
    acceptNegotiation sampleNegotiationAccepted sampleLoad 9 =
      .error ⟨400, "Negotiation already resolved"⟩ :=
  negotiation_resolution.1 sampleNegotiationAccepted sampleLoad 9
    (by decide) (by decide)

/-- C7 counterexample: `acceptAssignment` only checks `acceptedAt`, so an
assignment the driver already rejected (rejected timestamp set) is still
accepted — the claim says accept fails whenever either timestamp is set. -/
theorem acceptAssignment_after_reject_cex :
    sampleRejectedAssignment.rejectedAt.isSome = true ∧
    resultOk (acceptAssignment sampleRejectedAssignment sampleLoad 9 10) = true := by
  exact ⟨rfl, rfl⟩

/-- C7 (amended): accept fails when the accepted timestamp is already set and
reject fails when the rejected timestamp is already set (each operation
ignores the other timestamp); otherwise accept sets the load to ACCEPTED and
reject sets it to SCHEDULED with the rejection reason recorded. -/
theorem assignment_resolution :
    (∀ (a : LoadAssignment) (load : Load) (uid now : Nat),
       a.driverId = uid → a.acceptedAt.isSome = true →
       acceptAssignment a load uid now =
         .error ⟨400, "Assignment already accepted"⟩) ∧
    (∀ (a : LoadAssignment) (load : Load) (reason : Option String) (uid now : Nat),
       a.driverId = uid → a.rejectedAt.isSome = true →
       rejectAssignment a load reason uid now =
         .error ⟨400, "Assignment already rejected"⟩) ∧
    (∀ (a : LoadAssignment) (load : Load) (uid now : Nat) a' l' rows,
       acceptAssignment a load uid now = .ok (a', l', rows) →
       l'.status = .ACCEPTED ∧ a'.acceptedAt = some now) ∧
    (∀ (a : LoadAssignment) (load : Load) (reason : Option String) (uid now : Nat)
       a' l' rows,
       rejectAssignment a load reason uid now = .ok (a', l', rows) →
       l'.status = .SCHEDULED ∧ a'.rejectedAt = some now ∧
       a'.rejectionReason = reason) := by
  refine ⟨?_, ?_, ?_, ?_⟩
  · intro a load uid now hid hacc
    simp [acceptAssignment, hid, hacc]
  · intro a load reason uid now hid hrej
    simp [rejectAssignment, hid, hrej]
  · intro a load uid now a' l' rows h
    unfold acceptAssignment at h
    split at h
    · exact absurd h (by simp)
    · split at h
      · exact absurd h (by simp)
      · simp only [Except.ok.injEq, Prod.mk.injEq] at h
        obtain ⟨ha, hl, -⟩ := h
        subst ha hl
        exact ⟨rfl, rfl⟩
  · intro a load reason uid now a' l' rows h
    unfold rejectAssignment at h
    split at h
    · exact absurd h (by simp)
    · split at h
      · exact absurd h (by simp)
      · simp only [Except.ok.injEq, Prod.mk.injEq] at h
        obtain ⟨ha, hl, -⟩ := h
        subst ha hl
        exact ⟨rfl, rfl, rfl⟩

/-- C7 witness: the already-accepted assignment cannot be accepted again, and
an unresolved accept moves the load to ACCEPTED. -/
theorem assignment_resolution_witness :
    acceptAssignment sampleAcceptedAssignment sampleLoad 9 11 =
      .error ⟨400, "Assignment already accepted"⟩ :=
  assignment_resolution.1 sampleAcceptedAssignment sampleLoad 9 11 rfl rfl

/-- C2 counterexample: `createNegotiation` moves a PENDING_REVIEW load to
NEGOTIATING but appends no `LoadStatusHistory` row — the claim says every
status-changing operation appends exactly one. -/
theorem negotiation_skips_history_cex :
    ({ sampleLoad with status := .PENDING_REVIEW } : Load).status ≠ .NEGOTIATING ∧
    (createNegotiation { sampleLoad with status := .PENDING_REVIEW } 4 900 none
      none ⟨7, .SHIPPER_USER⟩).1.status = .NEGOTIATING ∧
    (createNegotiation { sampleLoad with status := .PENDING_REVIEW } 4 900 none
      none ⟨7, .SHIPPER_USER⟩).2.2 = [] := by
  refine ⟨by decide, rfl, rfl⟩

/-- C2 (amended): submission, approval, assignment, driver accept/reject,
progress updates, POD submission and POD verification each append exactly one
`LoadStatusHistory` row on success, capturing the prior status, new status and
the actor; negotiation creation and negotiation acceptance, however, change
the load status (PENDING_REVIEW → NEGOTIATING resp. → RATE_APPROVED) without
appending any history row. -/
theorem status_change_history_ledger :
    (∀ (load : Load) (actor : Actor) l' rows,
       submitLoad load actor = .ok (l', rows) →
       rows = [⟨load.id, .DRAFT, .PENDING_REVIEW, actor.id, actor.type,
               some "Load submitted for review"⟩] ∧
       l'.status = .PENDING_REVIEW) ∧
    (∀ (load : Load) (driverPay : Option Rat) (notes : Option String)
       (actor : Actor) l' rows,
       approveLoad load driverPay notes actor = .ok (l', rows) →
       rows = [⟨load.id, .RATE_APPROVED, .SCHEDULED, actor.id, actor.type,
               some (jsStrOr notes "Load approved and scheduled")⟩] ∧
       l'.status = .SCHEDULED) ∧
    (∀ (load : Load) (driver : Driver) (actor : Actor) (aid : Nat)
       (ep ed : Option Nat) (notes : Option String) a l' rows,
       assignLoad load driver actor aid ep ed notes = .ok (a, l', rows) →
       rows = [⟨load.id, .SCHEDULED, .ASSIGNED, actor.id, actor.type,
               some ("Load assigned to driver " ++ driver.firstName ++ " "
                 ++ driver.lastName)⟩] ∧
       l'.status = .ASSIGNED) ∧
    (∀ (a : LoadAssignment) (load : Load) (uid now : Nat) a' l' rows,
       acceptAssignment a load uid now = .ok (a', l', rows) →
       rows = [⟨a.loadId, .ASSIGNED, .ACCEPTED, uid, .DRIVER,
               some "Driver accepted assignment"⟩]) ∧
    (∀ (a : LoadAssignment) (load : Load) (reason : Option String) (uid now : Nat)
       a' l' rows,
       rejectAssignment a load reason uid now = .ok (a', l', rows) →
       rows.length = 1) ∧
    (∀ (load : Load) (actor : Actor) (target : LoadStatus) (notes : Option String)
       (now : Nat) l' rows,
       updateLoadStatus load actor target notes now = .ok (l', rows) →
       rows = [⟨load.id, load.status, target, actor.id, actor.type, notes⟩] ∧
       l'.status = target) ∧
    (∀ (load : Load) (assignments : List LoadAssignment) (did pid : Nat)
       (hasSig : Bool) (rn notes : Option String) pod l' rows,
       submitPOD load assignments did pid hasSig rn notes = .ok (pod, l', rows) →
       rows = [⟨load.id, load.status, .POD_SUBMITTED, did, .DRIVER,
               some "POD submitted by driver"⟩]) ∧
    (∀ (pod : PodDocument) (load : Load) (approved : Bool) (notes : Option String)
       (uid now : Nat) pod' l' rows,
       verifyPOD pod load approved notes uid now = .ok (pod', l', rows) →
       rows.length = 1) ∧
    (∀ (load : Load) (nid : Nat) (pr : Rat) (cr : Option Rat) (notes : Option String)
       (actor : Actor),
       (createNegotiation load nid pr cr notes actor).2.2 = [] ∧
       (load.status = .PENDING_REVIEW →
         (createNegotiation load nid pr cr notes actor).1.status = .NEGOTIATING)) ∧
    (∀ (n : Negotiation) (load : Load) (now : Nat) n' l' rows,
       acceptNegotiation n load now = .ok (n', l', rows) →
       rows = [] ∧ l'.status = .RATE_APPROVED) := by
  refine ⟨?_, ?_, ?_, ?_, ?_, ?_, ?_, ?_, ?_, ?_⟩
  · intro load actor l' rows h
    unfold submitLoad at h
    split at h
    · exact absurd h (by simp)
    · simp only [Except.ok.injEq, Prod.mk.injEq] at h
      obtain ⟨hl, hr⟩ := h
      subst hl hr
      exact ⟨rfl, rfl⟩
  · intro load driverPay notes actor l' rows h
    unfold approveLoad at h
    split at h
    · exact absurd h (by simp)
    · simp only [Except.ok.injEq, Prod.mk.injEq] at h
      obtain ⟨hl, hr⟩ := h
      subst hl hr
      exact ⟨rfl, rfl⟩
  · intro load driver actor aid ep ed notes a l' rows h
    unfold assignLoad at h
    split at h
    · exact absurd h (by simp)
    · split at h
      · exact absurd h (by simp)
      · simp only [Except.ok.injEq, Prod.mk.injEq] at h
        obtain ⟨-, hl, hr⟩ := h
        subst hl hr
        exact ⟨rfl, rfl⟩
  · intro a load uid now a' l' rows h
    unfold acceptAssignment at h
    split at h
    · exact absurd h (by simp)
    · split at h
      · exact absurd h (by simp)
      · simp only [Except.ok.injEq, Prod.mk.injEq] at h
        obtain ⟨-, -, hr⟩ := h
        subst hr
        rfl
  · intro a load reason uid now a' l' rows h
    unfold rejectAssignment at h
    split at h
    · exact absurd h (by simp)
    · split at h
      · exact absurd h (by simp)
      · simp only [Except.ok.injEq, Prod.mk.injEq] at h
        obtain ⟨-, -, hr⟩ := h
        subst hr
        rfl
  · intro load actor target notes now l' rows h
    unfold updateLoadStatus at h
    split at h
    · split at h
      · exact absurd h (by simp)
      · simp only [Except.ok.injEq, Prod.mk.injEq] at h
        obtain ⟨hl, hr⟩ := h
        subst hl hr
        exact ⟨rfl, rfl⟩
    · simp only [Except.ok.injEq, Prod.mk.injEq] at h
      obtain ⟨hl, hr⟩ := h
      subst hl hr
      exact ⟨rfl, rfl⟩
  · intro load assignments did pid hasSig rn notes pod l' rows h
    unfold submitPOD at h
    split at h
    · exact absurd h (by simp)
    · split at h
      · exact absurd h (by simp)
      · split at h
        · exact absurd h (by simp)
        · simp only [Except.ok.injEq, Prod.mk.injEq] at h
          obtain ⟨-, -, hr⟩ := h
          subst hr
          rfl
  · intro pod load approved notes uid now pod' l' rows h
    unfold verifyPOD at h
    split at h
    · exact absurd h (by simp)
    · simp only [Except.ok.injEq, Prod.mk.injEq] at h
      obtain ⟨-, -, hr⟩ := h
      subst hr
      cases approved <;> rfl
  · intro load nid pr cr notes actor
    refine ⟨rfl, fun h => ?_⟩
    simp [createNegotiation, h]
  · intro n load now n' l' rows h
    unfold acceptNegotiation at h
    split at h
    · exact absurd h (by simp)
    · simp only [Except.ok.injEq, Prod.mk.injEq] at h
      obtain ⟨-, hl, hr⟩ := h
      subst hl hr
      exact ⟨rfl, rfl⟩

/-- C2 witness: submitting a DRAFT load appends exactly the one history row,
and creating a negotiation on a PENDING_REVIEW load appends none while
changing the status. -/
theorem status_change_history_ledger_witness :
    ([(⟨1, .DRAFT, .PENDING_REVIEW, 3, .SHIPPER_USER,
        some "Load submitted for review"⟩ : HistoryRow)] =
      [⟨1, .DRAFT, .PENDING_REVIEW, 3, .SHIPPER_USER,
        some "Load submitted for review"⟩] ∧
     ({ sampleLoad with status := .PENDING_REVIEW } : Load).status =
       .PENDING_REVIEW) ∧
    ((createNegotiation { sampleLoad with status := .PENDING_REVIEW } 4 900 none
       none ⟨7, .SHIPPER_USER⟩).2.2 = [] ∧
     ({ sampleLoad with status := .PENDING_REVIEW } : Load).status = .PENDING_REVIEW →
       (createNegotiation { sampleLoad with status := .PENDING_REVIEW } 4 900 none
         none ⟨7, .SHIPPER_USER⟩).1.status = .NEGOTIATING) := by
  constructor
  · exact status_change_history_ledger.1 { sampleLoad with status := .DRAFT }
      ⟨3, .SHIPPER_USER⟩ { sampleLoad with status := .PENDING_REVIEW } _ rfl
  · intro h
    exact ((status_change_history_ledger.2.2.2.2.2.2.2.2.1
      { sampleLoad with status := .PENDING_REVIEW } 4 900 none none
      ⟨7, .SHIPPER_USER⟩).2) h.2

/-- The total returned by `validateDeductions` is the sum of the validated
deduction amounts. -/
theorem validateDeductions_sum :
    ∀ (ds : List DeductionInput) (vs : List Deduction) (t : Rat),
      validateDeductions ds = .ok (vs, t) →
      t = (vs.map (fun d => d.amount)).sum := by
  intro ds
  induction ds with
  | nil =>
    intro vs t h
    simp only [validateDeductions, Except.ok.injEq, Prod.mk.injEq] at h
    obtain ⟨hv, ht⟩ := h
    subst hv ht
    simp
  | cons d ds ih =>
    intro vs t h
    unfold validateDeductions at h
    split at h
    · exact absurd h (by simp)
    · split at h
      · exact absurd h (by simp)
      · split at h
        · exact absurd h (by simp)
        · rename_i heq
          simp only [Except.ok.injEq, Prod.mk.injEq] at h
          obtain ⟨hv, ht⟩ := h
          subst hv ht
          simp [ih _ _ heq]

/-- C3: every settlement either creator returns satisfies
`netAmount = grossAmount - sum(deduction amounts)` exactly (with
`totalDeductions` equal to that sum) and is never negative — a negative
difference, like any validation failure, yields an error and no settlement. -/
theorem settlement_net_amount :
    (∀ (load : Load) (assignments : List LoadAssignment) (existing : Bool)
       (ds : List DeductionInput) (num : String) (s : DriverSettlement),
       createSettlementFromLoad load assignments existing ds num = .ok s →
       s.netAmount = s.grossAmount - (s.deductions.map (fun d => d.amount)).sum ∧
       s.totalDeductions = (s.deductions.map (fun d => d.amount)).sum ∧
       0 ≤ s.netAmount) ∧
    (∀ (loads : List Load) (assignments : List LoadAssignment)
       (es : List DriverSettlement) (did sd ed : Nat) (ds : List DeductionInput)
       (num : String) (s : DriverSettlement),
       createPeriodSettlement loads assignments es did sd ed ds num = .ok s →
       s.netAmount = s.grossAmount - (s.deductions.map (fun d => d.amount)).sum ∧
       s.totalDeductions = (s.deductions.map (fun d => d.amount)).sum ∧
       0 ≤ s.netAmount) := by
  constructor
  · intro load assignments existing ds num s h
    unfold createSettlementFromLoad at h
    repeat' split at h
    all_goals try exact Except.noConfusion h
    all_goals
      rename_i hval hneg
      simp only [Except.ok.injEq] at h
      subst h
      have hsum := validateDeductions_sum _ _ _ hval
      exact ⟨by simp [hsum], by simp [hsum], not_lt.mp hneg⟩
  · intro loads assignments es did sd ed ds num s h
    unfold createPeriodSettlement at h
    repeat' split at h
    all_goals try exact Except.noConfusion h
    all_goals
      rename_i hval hneg
      simp only [Except.ok.injEq] at h
      subst h
      have hsum := validateDeductions_sum _ _ _ hval
      exact ⟨by simp [hsum], by simp [hsum], not_lt.mp hneg⟩

/-- Concrete evaluation of the spec scenario: gross 1000, deductions 100 and
50, net 850. -/
theorem exampleSettlement_eval :
    createSettlementFromLoad
      { sampleLoad with status := .COMPLETED, driverPay := some 1000 }
      [sampleAcceptedAssignment] false
      [⟨none, some 100, none⟩, ⟨none, some 50, none⟩] "SETTLE-2026-0001" =
      .ok ⟨9, some 1, "SETTLE-2026-0001", 10, 20, 1000, 150, 850, .PENDING,
           [⟨none, 100, "OTHER"⟩, ⟨none, 50, "OTHER"⟩]⟩ := by
  unfold createSettlementFromLoad
  norm_num [sampleLoad, sampleAcceptedAssignment, jsTruthyRat, jsOrNat,
    validateDeductions, jsStrOr]

/-- C3 witness: the spec scenario settlement satisfies the net-amount
equation. -/
theorem settlement_net_amount_witness :
    (⟨9, some 1, "SETTLE-2026-0001", 10, 20, 1000, 150, 850, .PENDING,
      [⟨none, 100, "OTHER"⟩, ⟨none, 50, "OTHER"⟩]⟩ : DriverSettlement).netAmount =
      (⟨9, some 1, "SETTLE-2026-0001", 10, 20, 1000, 150, 850, .PENDING,
        [⟨none, 100, "OTHER"⟩, ⟨none, 50, "OTHER"⟩]⟩ : DriverSettlement).grossAmount -
      ((⟨9, some 1, "SETTLE-2026-0001", 10, 20, 1000, 150, 850, .PENDING,
        [⟨none, 100, "OTHER"⟩, ⟨none, 50, "OTHER"⟩]⟩ : DriverSettlement).deductions.map
          (fun d => d.amount)).sum ∧
    (⟨9, some 1, "SETTLE-2026-0001", 10, 20, 1000, 150, 850, .PENDING,
      [⟨none, 100, "OTHER"⟩, ⟨none, 50, "OTHER"⟩]⟩ : DriverSettlement).totalDeductions =
      ((⟨9, some 1, "SETTLE-2026-0001", 10, 20, 1000, 150, 850, .PENDING,
        [⟨none, 100, "OTHER"⟩, ⟨none, 50, "OTHER"⟩]⟩ : DriverSettlement).deductions.map
          (fun d => d.amount)).sum ∧
    0 ≤ (⟨9, some 1, "SETTLE-2026-0001", 10, 20, 1000, 150, 850, .PENDING,
      [⟨none, 100, "OTHER"⟩, ⟨none, 50, "OTHER"⟩]⟩ : DriverSettlement).netAmount :=
  settlement_net_amount.1
    { sampleLoad with status := .COMPLETED, driverPay := some 1000 }
    [sampleAcceptedAssignment] false
    [⟨none, some 100, none⟩, ⟨none, some 50, none⟩] "SETTLE-2026-0001"
    ⟨9, some 1, "SETTLE-2026-0001", 10, 20, 1000, 150, 850, .PENDING,
     [⟨none, 100, "OTHER"⟩, ⟨none, 50, "OTHER"⟩]⟩ exampleSettlement_eval

/-- Concrete evaluation: invoice created from a completed load with one line
item of 100 and a 10 percent tax rate. -/
theorem exampleInvoiceCreated_eval :
    exampleInvoiceCreated =
      .ok ⟨1, 1, "INV-2026-0001", 100, 10, 110, .DRAFT, none,
           [⟨none, 1, 100, 100⟩]⟩ := by
  unfold exampleInvoiceCreated createInvoiceFromLoad
  norm_num [sampleLoad]

/-- C4 counterexample: a DRAFT update that replaces the line items (subtotal
100 → 200) without supplying a tax rate keeps the stale `taxAmount` of 10, so
the stored amounts no longer satisfy `taxAmount = subtotal * taxRate/100` for
the 10 percent rate used at creation (10 ≠ 200 * 10/100 = 20). -/
theorem invoice_tax_stale_cex :
    exampleInvoiceUpdated =
      .ok ⟨1, 1, "INV-2026-0001", 200, 10, 210, .DRAFT, none,
           [⟨none, 1, 200, 200⟩]⟩ ∧
    ¬ ((10 : Rat) = 200 * ((10 : Rat) / 100)) := by
  constructor
  · unfold exampleInvoiceUpdated
    rw [exampleInvoiceCreated_eval]
    unfold updateInvoice
    norm_num [jsTruthyRat, jsOrStrOpt]
  · norm_num

/-- C4 (amended): after creation the stored amounts satisfy
`taxAmount = subtotal * taxRate/100` and `total = subtotal + taxAmount` with
the subtotal the sum of the line-item amounts; after a DRAFT update that
supplies line items, `total = subtotal + taxAmount` always holds and
`taxAmount = subtotal * taxRate/100` holds exactly when a non-zero tax rate
accompanies the update — otherwise the previous `taxAmount` is carried over
unchanged. -/
theorem invoice_totals :
    (∀ (load : Load) (ex : Bool) (li : Option (List LineItem)) (tr : Option Rat)
       (notes : Option String) (num : String) (inv : ShipperInvoice),
       createInvoiceFromLoad load ex li tr notes num = .ok inv →
       inv.subtotal = (inv.lineItems.map (fun i => i.amount)).sum ∧
       inv.taxAmount = inv.subtotal * (tr.getD 0 / 100) ∧
       inv.total = inv.subtotal + inv.taxAmount) ∧
    (∀ (inv : ShipperInvoice) (li : List LineItem) (tr : Option Rat)
       (notes : Option String) (inv' : ShipperInvoice),
       updateInvoice inv (some li) tr notes = .ok inv' →
       inv'.subtotal = (li.map (fun i => i.amount)).sum ∧
       inv'.total = inv'.subtotal + inv'.taxAmount ∧
       (jsTruthyRat tr = true → inv'.taxAmount = inv'.subtotal * (tr.getD 0 / 100)) ∧
       (jsTruthyRat tr = false → inv'.taxAmount = inv.taxAmount)) := by
  constructor
  · intro load ex li tr notes num inv h
    unfold createInvoiceFromLoad at h
    repeat' split at h
    all_goals try exact Except.noConfusion h
    all_goals
      simp only [Except.ok.injEq] at h
      subst h
      exact ⟨rfl, rfl, rfl⟩
  · intro inv li tr notes inv' h
    unfold updateInvoice at h
    split at h
    · exact Except.noConfusion h
    · simp only [Except.ok.injEq] at h
      subst h
      by_cases htr : jsTruthyRat tr = true
      · refine ⟨rfl, by simp [htr], fun _ => by simp [htr], fun hf => ?_⟩
        rw [hf] at htr
        exact Bool.noConfusion htr
      · have hf : jsTruthyRat tr = false := by
          cases hb : jsTruthyRat tr
          · rfl
          · exact absurd hb htr
        refine ⟨rfl, by simp [hf], fun ht => ?_, fun _ => by simp [hf]⟩
        rw [ht] at hf
        exact Bool.noConfusion hf

/-- C4 witness: the created example invoice satisfies both identities. -/
theorem invoice_totals_witness :
    (⟨1, 1, "INV-2026-0001", 100, 10, 110, .DRAFT, none, [⟨none, 1, 100, 100⟩]⟩ :
      ShipperInvoice).subtotal =
      ((⟨1, 1, "INV-2026-0001", 100, 10, 110, .DRAFT, none, [⟨none, 1, 100, 100⟩]⟩ :
        ShipperInvoice).lineItems.map (fun i => i.amount)).sum ∧
    (⟨1, 1, "INV-2026-0001", 100, 10, 110, .DRAFT, none, [⟨none, 1, 100, 100⟩]⟩ :
      ShipperInvoice).taxAmount =
      (⟨1, 1, "INV-2026-0001", 100, 10, 110, .DRAFT, none, [⟨none, 1, 100, 100⟩]⟩ :
        ShipperInvoice).subtotal * ((some (10 : Rat)).getD 0 / 100) ∧
    (⟨1, 1, "INV-2026-0001", 100, 10, 110, .DRAFT, none, [⟨none, 1, 100, 100⟩]⟩ :
      ShipperInvoice).total =
      (⟨1, 1, "INV-2026-0001", 100, 10, 110, .DRAFT, none, [⟨none, 1, 100, 100⟩]⟩ :
        ShipperInvoice).subtotal +
      (⟨1, 1, "INV-2026-0001", 100, 10, 110, .DRAFT, none, [⟨none, 1, 100, 100⟩]⟩ :
        ShipperInvoice).taxAmount :=
  invoice_totals.1 { sampleLoad with status := .COMPLETED } false
    (some [⟨none, 1, 100, 100⟩]) (some 10) none "INV-2026-0001"
    ⟨1, 1, "INV-2026-0001", 100, 10, 110, .DRAFT, none, [⟨none, 1, 100, 100⟩]⟩
    exampleInvoiceCreated_eval

/-- After retiring, a row never counts as currently assigned for the retired
vehicle. -/
theorem retire_not_current (vid now : Nat) (a : VehicleAssignment) :
    ((retireIfCurrent vid now a).vehicleId == vid &&
      (retireIfCurrent vid now a).isCurrentlyAssigned) = false := by
  unfold retireIfCurrent
  split
  · simp
  · rename_i h
    by_cases hv : a.vehicleId = vid
    · have hc : a.isCurrentlyAssigned = false := by
        cases hb : a.isCurrentlyAssigned
        · rfl
        · exact absurd ⟨hv, hb⟩ h
      simp [hc]
    · simp [hv]

/-- Retiring for one vehicle does not change whether a row counts as current
for a different vehicle. -/
theorem retire_pred_other (vid now w : Nat) (hw : w ≠ vid) (a : VehicleAssignment) :
    ((retireIfCurrent vid now a).vehicleId == w &&
      (retireIfCurrent vid now a).isCurrentlyAssigned) =
    (a.vehicleId == w && a.isCurrentlyAssigned) := by
  unfold retireIfCurrent
  split
  · rename_i h
    obtain ⟨hv, hc⟩ := h
    have hvw : (a.vehicleId == w) = false := by
      simp [hv, Ne.symm hw]
    simp [hvw]
  · rfl

/-- `currentCount` after `assignVehicle`: exactly one for the assigned
vehicle, unchanged for every other vehicle. -/
theorem currentCount_assignVehicle (tbl : List VehicleAssignment)
    (vid did now : Nat) (notes : Option String) (w : Nat) :
    currentCount (assignVehicle tbl vid did now notes) w =
      if w = vid then 1 else currentCount tbl w := by
  unfold currentCount assignVehicle
  rw [List.countP_append, List.countP_map]
  by_cases hw : w = vid
  · subst hw
    have hz : tbl.countP
        ((fun a => a.vehicleId == w && a.isCurrentlyAssigned) ∘ retireIfCurrent w now)
        = 0 := by
      rw [List.countP_eq_zero]
      intro a _
      simp [Function.comp, retire_not_current w now a]
    simp [hz]
  · have hsame : tbl.countP
        ((fun a => a.vehicleId == w && a.isCurrentlyAssigned) ∘ retireIfCurrent vid now)
        = tbl.countP (fun a => a.vehicleId == w && a.isCurrentlyAssigned) := by
      apply List.countP_congr
      intro a _
      simp [Function.comp, retire_pred_other vid now w hw a]
    have hvw : (vid == w) = false := by
      simp only [beq_eq_false_iff_ne, ne_eq]
      intro hq
      exact hw hq.symm
    simp [hsame, hw, hvw]

/-- `currentCount` after `unassignVehicle`: zero for the vehicle, unchanged
for every other vehicle. -/
theorem currentCount_unassignVehicle (tbl : List VehicleAssignment)
    (vid now : Nat) (w : Nat) :
    currentCount (unassignVehicle tbl vid now) w =
      if w = vid then 0 else currentCount tbl w := by
  unfold currentCount unassignVehicle
  rw [List.countP_map]
  by_cases hw : w = vid
  · subst hw
    rw [if_pos rfl, List.countP_eq_zero]
    intro a _
    simp [Function.comp, retire_not_current w now a]
  · have hsame : tbl.countP
        ((fun a => a.vehicleId == w && a.isCurrentlyAssigned) ∘ retireIfCurrent vid now)
        = tbl.countP (fun a => a.vehicleId == w && a.isCurrentlyAssigned) := by
      apply List.countP_congr
      intro a _
      simp [Function.comp, retire_pred_other vid now w hw a]
    simp [hsame, hw]

/-- The at-most-one-active invariant is preserved by every endpoint call. -/
theorem vehicleOps_invariant :
    ∀ (ops : List VehicleOp) (tbl : List VehicleAssignment),
      (∀ v, currentCount tbl v ≤ 1) →
      ∀ v, currentCount (ops.foldl applyVehicleOp tbl) v ≤ 1 := by
  intro ops
  induction ops with
  | nil => intro tbl h v; exact h v
  | cons op ops ih =>
    intro tbl h v
    rw [List.foldl_cons]
    apply ih
    intro w
    cases op with
    | assign vid did now notes =>
      show currentCount (assignVehicle tbl vid did now notes) w ≤ 1
      rw [currentCount_assignVehicle]
      split
      · exact le_refl 1
      · exact h w
    | unassign vid now =>
      show currentCount (unassignVehicle tbl vid now) w ≤ 1
      rw [currentCount_unassignVehicle]
      split
      · exact Nat.zero_le 1
      · exact h w

/-- C6: after any sequence of assign/unassign calls starting from an empty
table, at most one `VehicleAssignment` row per vehicle has
`isCurrentlyAssigned = true`; moreover `assignVehicle` first retires every
currently-active row of the vehicle (so only the newly created assignment is
active for it: its current count is exactly one). -/
theorem vehicle_single_active :
    (∀ (ops : List VehicleOp) (vehicleId : Nat),
       currentCount (runVehicleOps ops) vehicleId ≤ 1) ∧
    (∀ (tbl : List VehicleAssignment) (vehicleId driverId now : Nat)
       (notes : Option String),
       currentCount (assignVehicle tbl vehicleId driverId now notes) vehicleId = 1 ∧
       (∀ a ∈ tbl.map (retireIfCurrent vehicleId now),
          a.vehicleId = vehicleId → a.isCurrentlyAssigned = false)) := by
  constructor
  · intro ops vehicleId
    unfold runVehicleOps
    apply vehicleOps_invariant
    intro v
    simp [currentCount]
  · intro tbl vehicleId driverId now notes
    constructor
    · rw [currentCount_assignVehicle]
      simp
    · intro a ha hv
      obtain ⟨b, hb, hba⟩ := List.mem_map.mp ha
      have := retire_not_current vehicleId now b
      rw [hba] at this
      cases hc : a.isCurrentlyAssigned
      · rfl
      · rw [hv, hc] at this
        simp at this

/-- C6 witness: assigning vehicle 1 (already actively assigned to driver 7) to
driver 8 retires the old row and leaves exactly one active row, and a
two-assign sequence from the empty table also ends with one active row. -/
theorem vehicle_single_active_witness :
    currentCount (runVehicleOps
      [.assign 1 7 0 none, .assign 1 8 5 none]) 1 ≤ 1 ∧
    currentCount (assignVehicle [⟨1, 7, true, none, none⟩] 1 8 5 none) 1 = 1 ∧
    (retireIfCurrent 1 5 ⟨1, 7, true, none, none⟩).isCurrentlyAssigned = false := by
  refine ⟨vehicle_single_active.1 [.assign 1 7 0 none, .assign 1 8 5 none] 1,
          (vehicle_single_active.2 [⟨1, 7, true, none, none⟩] 1 8 5 none).1,
          (vehicle_single_active.2 [⟨1, 7, true, none, none⟩] 1 8 5 none).2
            (retireIfCurrent 1 5 ⟨1, 7, true, none, none⟩) (by simp) (by rfl)⟩

/-- C8: POD submission succeeds only for a load in DELIVERED or AT_DELIVERY
and only when the calling driver holds an assignment on the load (the handler
filters the load's assignments by the caller's driver id), and on success the
load moves to POD_SUBMITTED; an unassigned driver is rejected with the 403
access-denied error before any POD row is created. -/
theorem submitPOD_guard :
    (∀ (load : Load) (assignments : List LoadAssignment) (did pid : Nat)
       (hasSig : Bool) (rn notes : Option String) pod l' rows,
       submitPOD load assignments did pid hasSig rn notes = .ok (pod, l', rows) →
       (load.status = .DELIVERED ∨ load.status = .AT_DELIVERY) ∧
       (assignments.filter (fun a => a.driverId == did)).isEmpty = false ∧
       l'.status = .POD_SUBMITTED ∧ pod.driverId = did ∧ pod.loadId = load.id ∧
       pod.verifiedAt = none) ∧
    (∀ (load : Load) (assignments : List LoadAssignment) (did pid : Nat)
       (hasSig : Bool) (rn notes : Option String),
       (assignments.filter (fun a => a.driverId == did)).isEmpty = true →
       submitPOD load assignments did pid hasSig rn notes =
         .error ⟨403, "You are not assigned to this load"⟩) := by
  constructor
  · intro load assignments did pid hasSig rn notes pod l' rows h
    unfold submitPOD at h
    split at h
    · exact absurd h (by simp)
    · split at h
      · exact absurd h (by simp)
      · split at h
        · exact absurd h (by simp)
        · simp only [Except.ok.injEq, Prod.mk.injEq] at h
          obtain ⟨hp, hl, -⟩ := h
          subst hp hl
          rename_i hassign hstatus _
          refine ⟨?_, ?_, rfl, rfl, rfl, rfl⟩
          · rcases Decidable.not_and_iff_or_not.mp hstatus with h1 | h1
            · exact Or.inl (not_not.mp h1)
            · exact Or.inr (not_not.mp h1)
          · simpa using hassign
  · intro load assignments did pid hasSig rn notes h
    simp [submitPOD, h]

/-- C8 witness: a driver with no assignment on the load is rejected with the
access-denied error. -/
theorem submitPOD_guard_witness :
    submitPOD { sampleLoad with status := .DELIVERED } [] 9 6 true none none =
      .error ⟨403, "You are not assigned to this load"⟩ :=
  submitPOD_guard.2 { sampleLoad with status := .DELIVERED } [] 9 6 true none none rfl

/-- C10: the first `verifyPOD` call on an unverified POD sets the verified
timestamp whether the verdict is approve (load → COMPLETED) or reject (load →
POD_PENDING), and any call on a POD whose verified timestamp is set fails with
the already-verified error (the handler returns before touching any row), so
the produced POD can never be verified again. -/
theorem verifyPOD_once :
    (∀ (pod : PodDocument) (load : Load) (approved : Bool) (notes : Option String)
       (uid now : Nat), pod.verifiedAt.isSome = true →
       verifyPOD pod load approved notes uid now =
         .error ⟨400, "POD already verified"⟩) ∧
    (∀ (pod : PodDocument) (load : Load) (approved : Bool) (notes : Option String)
       (uid now : Nat) pod' l' rows,
       verifyPOD pod load approved notes uid now = .ok (pod', l', rows) →
       pod'.verifiedAt = some now ∧
       l'.status = (if approved then .COMPLETED else .POD_PENDING) ∧
       (∀ (load2 : Load) (approved2 : Bool) (notes2 : Option String) (uid2 now2 : Nat),
          verifyPOD pod' load2 approved2 notes2 uid2 now2 =
            .error ⟨400, "POD already verified"⟩)) := by
  constructor
  · intro pod load approved notes uid now h
    simp [verifyPOD, h]
  · intro pod load approved notes uid now pod' l' rows h
    unfold verifyPOD at h
    split at h
    · exact absurd h (by simp)
    · simp only [Except.ok.injEq, Prod.mk.injEq] at h
      obtain ⟨hp, hl, -⟩ := h
      subst hp hl
      exact ⟨rfl, rfl, fun load2 approved2 notes2 uid2 now2 => by
        simp [verifyPOD]⟩

/-- C10 witness: verifying a fresh POD (approve verdict) sets the verified
timestamp, completes the load, and a second verification fails. -/
theorem verifyPOD_once_witness :
    ((⟨6, 1, 9, none, none, none, none⟩ : PodDocument) : PodDocument).verifiedAt = none ∧
    (({ (⟨6, 1, 9, none, none, none, none⟩ : PodDocument) with
         verifiedAt := some 30, verifiedById := some 2,
         notes := jsOrStrOpt none none } : PodDocument).verifiedAt = some 30) := by
  constructor
  · rfl
  · exact (verifyPOD_once.2 ⟨6, 1, 9, none, none, none, none⟩
      { sampleLoad with status := .POD_SUBMITTED } true none 2 30 _ _ _ rfl).1

/-- C9: for each of the three principal types, five consecutive failed
password checks starting from a fresh account set the lock to now + 15
minutes (and four do not); while the lock has not elapsed every login attempt
returns the locked-account outcome without touching the row; and a successful
login resets the failed-attempt counter to zero and clears the lock. -/
theorem login_lockout :
    (∀ now : Nat,
       ((fun u => (loginInternalUser u false now).1)^[4] ⟨0, none, true⟩).lockedUntil
         = none ∧
       ((fun u => (loginInternalUser u false now).1)^[5] ⟨0, none, true⟩).lockedUntil
         = some (now + lockWindowMs) ∧
       ((fun u => (loginShipperUser u true false now).1)^[5] ⟨0, none, true⟩).lockedUntil
         = some (now + lockWindowMs) ∧
       ((fun u => (loginDriver u false now).1)^[5] ⟨0, none, true⟩).lockedUntil
         = some (now + lockWindowMs)) ∧
    (∀ (u : Credential) (pw : Bool) (now t : Nat),
       u.lockedUntil = some t → now < t →
       loginInternalUser u pw now = (u, .accountLocked) ∧
       loginShipperUser u true pw now = (u, .accountLocked) ∧
       loginDriver u pw now = (u, .accountLocked)) ∧
    (∀ (u : Credential) (now : Nat),
       lockActive u now = false → u.isActive = true →
       loginInternalUser u true now =
         ({ u with failedLoginAttempts := 0, lockedUntil := none }, .success) ∧
       loginShipperUser u true true now =
         ({ u with failedLoginAttempts := 0, lockedUntil := none }, .success) ∧
       loginDriver u true now =
         ({ u with failedLoginAttempts := 0, lockedUntil := none }, .success)) := by
  refine ⟨?_, ?_, ?_⟩
  · intro now
    refine ⟨rfl, rfl, rfl, rfl⟩
  · intro u pw now t hl hn
    have hla : lockActive u now = true := by
      simp [lockActive, hl, hn]
    refine ⟨?_, ?_, ?_⟩ <;>
      simp [loginInternalUser, loginShipperUser, loginDriver, hla]
  · intro u now hla hact
    refine ⟨?_, ?_, ?_⟩ <;>
      simp [loginInternalUser, loginShipperUser, loginDriver, hla, hact]

/-- C9 witness: a row locked until time 100 rejects a login at time 50 with
the locked outcome, and a successful unlocked login resets the counters. -/
theorem login_lockout_witness :
    (loginInternalUser ⟨5, some 100, true⟩ true 50 =
       (⟨5, some 100, true⟩, .accountLocked) ∧
     loginShipperUser ⟨5, some 100, true⟩ true true 50 =
       (⟨5, some 100, true⟩, .accountLocked) ∧
     loginDriver ⟨5, some 100, true⟩ true 50 =
       (⟨5, some 100, true⟩, .accountLocked)) ∧
    (loginInternalUser ⟨3, none, true⟩ true 200 =
       ({ (⟨3, none, true⟩ : Credential) with
            failedLoginAttempts := 0, lockedUntil := none }, .success) ∧
     loginShipperUser ⟨3, none, true⟩ true true 200 =
       ({ (⟨3, none, true⟩ : Credential) with
            failedLoginAttempts := 0, lockedUntil := none }, .success) ∧
     loginDriver ⟨3, none, true⟩ true 200 =
       ({ (⟨3, none, true⟩ : Credential) with
            failedLoginAttempts := 0, lockedUntil := none }, .success)) :=
  ⟨login_lockout.2.1 ⟨5, some 100, true⟩ true 50 100 rfl (by decide),
   login_lockout.2.2 ⟨3, none, true⟩ 200 rfl rfl⟩

end TMS
